import Mathlib

/-!
Shallow embedding of the FileBackedValue crate (src/lib.rs): a lazily
populated, file-persisted cache for a single value of type T.

The in-memory state mirrors the Rust struct's `value` and `dirty_time`
fields.  Path resolution (`directories::BaseDirs`, `sanitize_filename`,
`PathBuf::join`) is plumbing outside the cache logic: every operation of an
instance touches exactly one file, the one at `self.path()`, so the
filesystem is modelled as the state of that single file together with the
environment conditions the Rust code can observe (open failures, metadata
failures, the clock).  Durations and `SystemTime` instants are modelled as
natural numbers; `SystemTime::duration_since` fails exactly when the
recorded modification time is later than `now`.  The serializer
(`serde_json`) is the external collaborator the code delegates to: file
contents are either a well-formed encoding of some `t : T` or malformed
bytes; `from_reader` on the former yields `t`, on the latter a decode
error, and `to_writer` on a value of `T` succeeds (as it does for the
payload types this cache is used with).

A Rust call that unwraps an `Err`/`None` aborts; that outcome is modelled
explicitly by the `Outcome.panics` constructor, so that claims about error
propagation versus process death can be stated and decided.
-/

/-- Error kinds of `std::io::Error` that the code distinguishes:
`ErrorKind::NotFound` (matched in `read_file`), `AlreadyExists` (produced by
`create_new(true)` when the file exists), and everything else. -/
inductive IOKind where
  | notFound
  | alreadyExists
  | other
deriving DecidableEq, Repr

/-- The two variants of `FileBackedValueError`: an I/O error carrying its
kind, or a serde decode/encode error. -/
inductive FileBackedValueError where
  | FileError (k : IOKind)
  | JsonError
deriving DecidableEq, Repr

/-- Result of a Rust call that, besides succeeding or returning an error,
may also `unwrap` an `Err`/`None` and abort the process. -/
inductive Outcome (α : Type) where
  | ok (a : α)
  | err (e : FileBackedValueError)
  | panics
deriving DecidableEq, Repr

/-- Contents of the backing file: a well-formed JSON encoding of a value of
`T`, or bytes that do not parse as `T`. -/
inductive FileContent (T : Type) where
  | encoded (t : T)
  | malformed
deriving DecidableEq, Repr

/-- The state of the backing file at the instance's path, plus the
environment conditions the code observes through `std::fs`. -/
structure FileSystem (T : Type) where
  /-- Contents of the file at the path; `none` means the file does not
  exist, so opening it for reading fails with `NotFound`. -/
  file : Option (FileContent T)
  /-- Opening the existing file for reading fails with an error other than
  `NotFound` (e.g. permissions). -/
  openFails : Bool
  /-- `fs::metadata` fails even though the file exists. -/
  metaFails : Bool
  /-- `metadata.modified()` succeeds on this platform/filesystem. -/
  mtimeOk : Bool
  /-- Instant at which the file was last modified. -/
  mtime : Nat
  /-- Instant returned by `SystemTime::now()`. -/
  now : Nat
  /-- `fs::create_dir_all` on the parent directory fails. -/
  createDirFails : Bool
deriving DecidableEq, Repr

/-- The struct `FileBackedValue<T>`: the optional in-memory copy of the
value and the optional staleness threshold.  The `dir` and `filename`
fields of the Rust struct only feed `path()`, which the `FileSystem` state
abstracts (one instance, one path). -/
structure FileBackedValue (T : Type) where
  value : Option T
  dirty_time : Option Nat
deriving DecidableEq, Repr

/-- `time_since_last_modified`: duration since the file at the path was
last modified; `none` when `fs::metadata` fails (file missing or metadata
unreadable), when `modified()` fails, or when `duration_since` fails
because the modification time is in the future. -/
def time_since_last_modified {T : Type} (fs : FileSystem T) : Option Nat :=
  if fs.file.isSome && !fs.metaFails then
    if fs.mtimeOk then
      if fs.mtime ≤ fs.now then some (fs.now - fs.mtime) else none
    else none
  else none

/-- `file_needs_recomputation`: the modification time could not be
retrieved, or the file was last modified at least `dirty_time` ago
(`last_modified >= dirty_time` in the source). -/
def file_needs_recomputation {T : Type} (fs : FileSystem T) (dirty_time : Nat) : Bool :=
  match time_since_last_modified fs with
  | none => true
  | some last_modified => decide (dirty_time ≤ last_modified)

namespace FileBackedValue

/-- `new` / `new_at`: no in-memory value, no staleness threshold. -/
def new {T : Type} : FileBackedValue T :=
  { value := none, dirty_time := none }

/-- `set_dirty_time`: configure the staleness threshold. -/
def set_dirty_time {T : Type} (v : FileBackedValue T) (dirty_time : Nat) :
    FileBackedValue T :=
  { v with dirty_time := some dirty_time }

/-- `set_dirty`: `self.value.take()` — drops and returns the in-memory
value, touching nothing else. -/
def set_dirty {T : Type} (v : FileBackedValue T) :
    Option T × FileBackedValue T :=
  (v.value, { v with value := none })

/-- `file_is_dirty`: `self.dirty_time.is_some_and(|d| file_needs_recomputation(path, d))`. -/
def file_is_dirty {T : Type} (v : FileBackedValue T) (fs : FileSystem T) : Bool :=
  match v.dirty_time with
  | none => false
  | some dirty_time => file_needs_recomputation fs dirty_time

/-- `read_file`: open for reading and deserialize; `NotFound` is mapped to
`Ok(None)`, other open failures to `FileError`, parse failures to
`JsonError`. -/
def read_file {T : Type} (fs : FileSystem T) :
    Except FileBackedValueError (Option T) :=
  match fs.file with
  | none => .ok none
  | some c =>
      if fs.openFails then .error (.FileError .other)
      else
        match c with
        | .encoded t => .ok (some t)
        | .malformed => .error .JsonError

/-- `write_file`: `create_dir_all` on the parent, then open with
`create_new(true).write(true)` — which fails with `AlreadyExists` when a
file is already present — then serialize the value into the new file. -/
def write_file {T : Type} (fs : FileSystem T) (value : T) :
    Except FileBackedValueError Unit × FileSystem T :=
  if fs.createDirFails then (.error (.FileError .other), fs)
  else
    match fs.file with
    | some _ => (.error (.FileError .alreadyExists), fs)
    | none => (.ok (), { fs with file := some (.encoded value), mtime := fs.now })

/-- `insert`: `self.write_file(&value).unwrap(); self.value.insert(value)` —
a write failure is unwrapped, i.e. the call panics instead of returning the
error. -/
def insert {T : Type} (v : FileBackedValue T) (fs : FileSystem T) (value : T) :
    Outcome T × FileBackedValue T × FileSystem T :=
  match write_file fs value with
  | (.ok _, fs') => (.ok value, { v with value := some value }, fs')
  | (.error _, fs') => (.panics, v, fs')

/-- `get`: reload from the backing file when there is no in-memory value or
the file is dirty; `?` propagates a read error before `self.value` is
assigned. -/
def get {T : Type} (v : FileBackedValue T) (fs : FileSystem T) :
    Outcome (Option T) × FileBackedValue T :=
  if v.value.isNone || v.file_is_dirty fs then
    match read_file fs with
    | .error e => (.err e, v)
    | .ok r => (.ok r, { v with value := r })
  else (.ok v.value, v)

/-- `get_or_insert`: recompute on a dirty file, otherwise read the file on a
missing in-memory value — `self.read_file()?.unwrap()` panics when the read
succeeds with `None` — otherwise return the stored value. -/
def get_or_insert {T : Type} (v : FileBackedValue T) (fs : FileSystem T) (default : T) :
    Outcome T × FileBackedValue T × FileSystem T :=
  if v.file_is_dirty fs then
    v.insert fs default
  else if v.value.isNone then
    match read_file fs with
    | .error e => (.err e, v, fs)
    | .ok none => (.panics, v, fs)
    | .ok (some t) => (.ok t, { v with value := some t }, fs)
  else
    match v.value with
    | some t => (.ok t, v, fs)
    | none => (.panics, v, fs)

/-- `get_or_insert_with`: as `get_or_insert`, with the default produced by a
closure evaluated only in the dirty branch (`self.insert((default)())`).
The last component counts how often the closure is evaluated. -/
def get_or_insert_with {T : Type} (v : FileBackedValue T) (fs : FileSystem T)
    (default : Unit → T) :
    Outcome T × FileBackedValue T × FileSystem T × Nat :=
  if v.file_is_dirty fs then
    match v.insert fs (default ()) with
    | (o, v', fs') => (o, v', fs', 1)
  else if v.value.isNone then
    match read_file fs with
    | .error e => (.err e, v, fs, 0)
    | .ok none => (.panics, v, fs, 0)
    | .ok (some t) => (.ok t, { v with value := some t }, fs, 0)
  else
    match v.value with
    | some t => (.ok t, v, fs, 0)
    | none => (.panics, v, fs, 0)

end FileBackedValue

/-- A benign filesystem state over `Nat` payloads: the file exists and holds
a well-formed encoding of `t`, was last modified at instant `m`, the clock
reads `n`, and no environment failure is pending. -/
def goodFS (t m n : Nat) : FileSystem Nat :=
  { file := some (.encoded t), openFails := false, metaFails := false,
    mtimeOk := true, mtime := m, now := n, createDirFails := false }

/-- A filesystem state with no backing file and no environment failures. -/
def emptyFS (n : Nat) : FileSystem Nat :=
  { file := none, openFails := false, metaFails := false,
    mtimeOk := true, mtime := 0, now := n, createDirFails := false }

/-- A filesystem state whose file exists but holds bytes that do not parse
as a `Nat`; last modified at `m`, clock at `n`. -/
def junkFS (m n : Nat) : FileSystem Nat :=
  { file := some .malformed, openFails := false, metaFails := false,
    mtimeOk := true, mtime := m, now := n, createDirFails := false }

/-- A filesystem state whose file exists but cannot be opened for reading
(a non-NotFound I/O failure, e.g. permissions); payload `Nat`. -/
def lockedFS (m n : Nat) : FileSystem Nat :=
  { file := some (.encoded 1), openFails := true, metaFails := false,
    mtimeOk := true, mtime := m, now := n, createDirFails := false }

/-- Claim C4: the internal freshness predicate classifies the backing file
as dirty iff a staleness threshold is configured AND either the file's
modification time cannot be determined or the elapsed time since
modification is at least the threshold; with no threshold configured the
file is never dirty. -/
theorem file_is_dirty_characterization {T : Type} (v : FileBackedValue T)
    (fs : FileSystem T) :
    (v.file_is_dirty fs = true ↔
      ∃ d, v.dirty_time = some d ∧
        (time_since_last_modified fs = none ∨
          ∃ e, time_since_last_modified fs = some e ∧ d ≤ e)) ∧
    (v.dirty_time = none → v.file_is_dirty fs = false) := by
  constructor
  · cases hv : v.dirty_time with
    | none => simp [FileBackedValue.file_is_dirty, hv]
    | some d =>
      cases ht : time_since_last_modified fs with
      | none =>
        simp [FileBackedValue.file_is_dirty, hv, file_needs_recomputation, ht]
      | some e =>
        simp [FileBackedValue.file_is_dirty, hv, file_needs_recomputation, ht]
  · intro h
    simp [FileBackedValue.file_is_dirty, h]

/-- Witness for C4: with no threshold configured the file is not dirty,
even though no backing file exists. -/
theorem file_is_dirty_characterization_witness :
    FileBackedValue.file_is_dirty
      ({ value := some 3, dirty_time := none } : FileBackedValue Nat) (emptyFS 0) = false :=
  (file_is_dirty_characterization
    ({ value := some 3, dirty_time := none } : FileBackedValue Nat) (emptyFS 0)).2 rfl

/-- Claim C5: when get() actually performs the file read (no in-memory
value, or a dirty file) and the read fails, the error is propagated to the
caller and the instance — in particular a previously-good in-memory
value — is left unchanged. -/
theorem get_read_error_preserves_value {T : Type} (v : FileBackedValue T)
    (fs : FileSystem T) (e : FileBackedValueError)
    (htrig : v.value.isNone = true ∨ v.file_is_dirty fs = true)
    (herr : FileBackedValue.read_file (T := T) fs = .error e) :
    v.get fs = (.err e, v) := by
  have hcond : (v.value.isNone || v.file_is_dirty fs) = true := by
    rcases htrig with h | h <;> simp [h]
  simp [FileBackedValue.get, hcond, herr]

/-- Witness for C5: cached value 3, threshold 0 (file always dirty), file
contents malformed; get returns the decode error and keeps the cache. -/
theorem get_read_error_preserves_value_witness :
    FileBackedValue.get
        ({ value := some 3, dirty_time := some 0 } : FileBackedValue Nat) (junkFS 0 5) =
      (.err .JsonError, { value := some 3, dirty_time := some 0 }) :=
  get_read_error_preserves_value
    ({ value := some 3, dirty_time := some 0 } : FileBackedValue Nat) (junkFS 0 5)
    .JsonError (Or.inr (by decide)) rfl

/-- Claim C6: on a freshly constructed instance, a missing backing file
makes get() return absence (not an error); a file that exists but does not
parse makes it return the decode error; a non-NotFound access failure makes
it return the I/O error; and the two error variants are distinct. -/
theorem get_absence_and_error_kinds {T : Type} :
    (∀ fs : FileSystem T, fs.file = none →
      FileBackedValue.get FileBackedValue.new fs = (.ok none, FileBackedValue.new)) ∧
    (∀ fs : FileSystem T, fs.file = some .malformed → fs.openFails = false →
      FileBackedValue.get FileBackedValue.new fs = (.err .JsonError, FileBackedValue.new)) ∧
    (∀ (fs : FileSystem T) (c : FileContent T), fs.file = some c → fs.openFails = true →
      FileBackedValue.get FileBackedValue.new fs = (.err (.FileError .other), FileBackedValue.new)) ∧
    (∀ k : IOKind, FileBackedValueError.JsonError ≠ FileBackedValueError.FileError k) := by
  refine ⟨?_, ?_, ?_, ?_⟩
  · intro fs h
    simp [FileBackedValue.get, FileBackedValue.new, FileBackedValue.read_file, h]
  · intro fs h hopen
    simp [FileBackedValue.get, FileBackedValue.new, FileBackedValue.read_file, h, hopen]
  · intro fs c h hopen
    simp [FileBackedValue.get, FileBackedValue.new, FileBackedValue.read_file, h, hopen]
  · intro k hk
    exact FileBackedValueError.noConfusion hk

/-- Witness for C6 at concrete states: missing file, malformed file, and
unreadable file. -/
theorem get_absence_and_error_kinds_witness :
    FileBackedValue.get (FileBackedValue.new (T := Nat)) (emptyFS 0) =
      (.ok none, FileBackedValue.new) ∧
    FileBackedValue.get (FileBackedValue.new (T := Nat)) (junkFS 0 0) =
      (.err .JsonError, FileBackedValue.new) ∧
    FileBackedValue.get (FileBackedValue.new (T := Nat)) (lockedFS 0 0) =
      (.err (.FileError .other), FileBackedValue.new) :=
  ⟨(get_absence_and_error_kinds (T := Nat)).1 (emptyFS 0) rfl,
   (get_absence_and_error_kinds (T := Nat)).2.1 (junkFS 0 0) rfl rfl,
   (get_absence_and_error_kinds (T := Nat)).2.2.1 (lockedFS 0 0) (FileContent.encoded 1) rfl rfl⟩

/-- Claim C7: with no staleness threshold configured and a value loaded in
memory, get, get_or_insert and get_or_insert_with return that value and
leave both the instance and the filesystem untouched, for every filesystem
state — in particular after arbitrary external modification of the backing
file — so the file is never re-read; since the instance state is returned
unchanged, this persists for the lifetime of the instance. -/
theorem no_threshold_single_read {T : Type} (v : FileBackedValue T) (fs : FileSystem T)
    (t dflt : T) (f : Unit → T)
    (hthresh : v.dirty_time = none) (hval : v.value = some t) :
    v.get fs = (.ok (some t), v) ∧
    v.get_or_insert fs dflt = (.ok t, v, fs) ∧
    v.get_or_insert_with fs f = (.ok t, v, fs, 0) := by
  have hdirty : v.file_is_dirty fs = false := by
    simp [FileBackedValue.file_is_dirty, hthresh]
  refine ⟨?_, ?_, ?_⟩ <;>
    simp [FileBackedValue.get, FileBackedValue.get_or_insert,
      FileBackedValue.get_or_insert_with, hdirty, hval]

/-- Witness for C7: the cache holds 4, the file was externally replaced
with an encoding of 99, and all three accessors still return 4. -/
theorem no_threshold_single_read_witness :
    FileBackedValue.get
        ({ value := some 4, dirty_time := none } : FileBackedValue Nat) (goodFS 99 0 1000) =
      (.ok (some 4), { value := some 4, dirty_time := none }) ∧
    FileBackedValue.get_or_insert
        ({ value := some 4, dirty_time := none } : FileBackedValue Nat) (goodFS 99 0 1000) 0 =
      (.ok 4, { value := some 4, dirty_time := none }, goodFS 99 0 1000) :=
  ⟨(no_threshold_single_read ({ value := some 4, dirty_time := none } : FileBackedValue Nat)
      (goodFS 99 0 1000) 4 0 (fun _ => 0) rfl rfl).1,
   (no_threshold_single_read ({ value := some 4, dirty_time := none } : FileBackedValue Nat)
      (goodFS 99 0 1000) 4 0 (fun _ => 0) rfl rfl).2.1⟩

/-- Claim C8: write-then-read round-trip.  When the exclusive write can
succeed (no file at the path yet, directories creatable), insert(val)
returns val, a subsequent get on the same instance returns val, and a get
on a fresh no-threshold instance pointed at the same path returns val. -/
theorem insert_then_get_roundtrip {T : Type} (v : FileBackedValue T) (fs : FileSystem T)
    (val : T)
    (hfile : fs.file = none) (hdir : fs.createDirFails = false)
    (hopen : fs.openFails = false) :
    (v.insert fs val).1 = .ok val ∧
    ((v.insert fs val).2.1.get (v.insert fs val).2.2).1 = .ok (some val) ∧
    (FileBackedValue.new.get (v.insert fs val).2.2).1 = .ok (some val) := by
  have hw : FileBackedValue.write_file fs val =
      (.ok (), { fs with file := some (.encoded val), mtime := fs.now }) := by
    simp [FileBackedValue.write_file, hdir, hfile]
  have hins : v.insert fs val =
      (.ok val, { v with value := some val },
        { fs with file := some (.encoded val), mtime := fs.now }) := by
    simp [FileBackedValue.insert, hw]
  rw [hins]
  refine ⟨rfl, ?_, ?_⟩
  · cases hd : FileBackedValue.file_is_dirty { v with value := some val }
        { fs with file := some (.encoded val), mtime := fs.now } with
    | true => simp [FileBackedValue.get, hd, FileBackedValue.read_file, hopen]
    | false => simp [FileBackedValue.get, hd]
  · simp [FileBackedValue.get, FileBackedValue.new, FileBackedValue.read_file, hopen]

/-- Witness for C8: inserting 42 with no pre-existing file, then reading it
back on the same instance and on a fresh instance. -/
theorem insert_then_get_roundtrip_witness :
    (FileBackedValue.insert (FileBackedValue.new (T := Nat)) (emptyFS 5) 42).1 = .ok 42 ∧
    ((FileBackedValue.insert (FileBackedValue.new (T := Nat)) (emptyFS 5) 42).2.1.get
        (FileBackedValue.insert (FileBackedValue.new (T := Nat)) (emptyFS 5) 42).2.2).1 =
      .ok (some 42) ∧
    (FileBackedValue.new.get
        (FileBackedValue.insert (FileBackedValue.new (T := Nat)) (emptyFS 5) 42).2.2).1 =
      .ok (some 42) :=
  insert_then_get_roundtrip FileBackedValue.new (emptyFS 5) 42 rfl rfl rfl

/-- Claim C9: with threshold d configured, an in-memory value present, and a
backing file whose modification time is determinable and less than d in the
past, get_or_insert and get_or_insert_with return the stored value, leave
the instance and the filesystem exactly as they were (no write, unchanged
modification time), and never evaluate the default factory. -/
theorem fresh_file_suppresses_io {T : Type} (v : FileBackedValue T) (fs : FileSystem T)
    (t dflt : T) (f : Unit → T) (d : Nat)
    (hthresh : v.dirty_time = some d) (hval : v.value = some t)
    (hfile : fs.file.isSome = true) (hmeta : fs.metaFails = false)
    (hmtok : fs.mtimeOk = true) (hle : fs.mtime ≤ fs.now)
    (hfresh : fs.now - fs.mtime < d) :
    v.get_or_insert fs dflt = (.ok t, v, fs) ∧
    v.get_or_insert_with fs f = (.ok t, v, fs, 0) := by
  have htime : time_since_last_modified fs = some (fs.now - fs.mtime) := by
    simp [time_since_last_modified, hfile, hmeta, hmtok, hle]
  have hdirty : v.file_is_dirty fs = false := by
    simp [FileBackedValue.file_is_dirty, hthresh, file_needs_recomputation, htime]
    omega
  constructor <;>
    simp [FileBackedValue.get_or_insert, FileBackedValue.get_or_insert_with, hdirty, hval]

/-- Witness for C9: threshold 50, file modified 10 ticks ago, cache holds 4;
both accessors return 4 with the filesystem unchanged. -/
theorem fresh_file_suppresses_io_witness :
    FileBackedValue.get_or_insert
        ({ value := some 4, dirty_time := some 50 } : FileBackedValue Nat) (goodFS 7 0 10) 0 =
      (.ok 4, { value := some 4, dirty_time := some 50 }, goodFS 7 0 10) ∧
    FileBackedValue.get_or_insert_with
        ({ value := some 4, dirty_time := some 50 } : FileBackedValue Nat) (goodFS 7 0 10)
        (fun _ => 0) =
      (.ok 4, { value := some 4, dirty_time := some 50 }, goodFS 7 0 10, 0) :=
  fresh_file_suppresses_io ({ value := some 4, dirty_time := some 50 } : FileBackedValue Nat)
    (goodFS 7 0 10) 4 0 (fun _ => 0) 50 rfl rfl (by decide) rfl rfl (by decide) (by decide)

/-- Claim C10: with no threshold, no in-memory value, and no backing file,
get_or_insert and get_or_insert_with panic: the file is not dirty (no
threshold), the read yields absence, and the code unwraps it; the default
is neither inserted nor returned, no error is returned, and the factory is
never evaluated. -/
theorem get_or_insert_missing_file_panics {T : Type} (v : FileBackedValue T)
    (fs : FileSystem T) (dflt : T) (f : Unit → T)
    (hthresh : v.dirty_time = none) (hval : v.value = none) (hfile : fs.file = none) :
    (v.get_or_insert fs dflt).1 = .panics ∧
    (v.get_or_insert_with fs f).1 = .panics ∧
    (v.get_or_insert_with fs f).2.2.2 = 0 := by
  have hdirty : v.file_is_dirty fs = false := by
    simp [FileBackedValue.file_is_dirty, hthresh]
  refine ⟨?_, ?_, ?_⟩ <;>
    simp [FileBackedValue.get_or_insert, FileBackedValue.get_or_insert_with,
      hdirty, hval, FileBackedValue.read_file, hfile]

/-- Witness for C10: a fresh instance over an empty filesystem panics on
get_or_insert(1) and on get_or_insert_with. -/
theorem get_or_insert_missing_file_panics_witness :
    (FileBackedValue.get_or_insert (FileBackedValue.new (T := Nat)) (emptyFS 0) 1).1 =
      .panics ∧
    (FileBackedValue.get_or_insert_with (FileBackedValue.new (T := Nat)) (emptyFS 0)
        (fun _ => 1)).1 = .panics :=
  ⟨(get_or_insert_missing_file_panics FileBackedValue.new (emptyFS 0) 1 (fun _ => 1)
      rfl rfl rfl).1,
   (get_or_insert_missing_file_panics FileBackedValue.new (emptyFS 0) 1 (fun _ => 1)
      rfl rfl rfl).2.1⟩

/-- Claim C1 (divergence exhibit): threshold 10 is set and the backing file
still exists, last modified 100 ticks ago, so it is dirty; get_or_insert(42)
and get_or_insert_with do NOT overwrite the file and return the new value —
the create-exclusive open inside write_file fails with AlreadyExists on the
still-existing file, insert unwraps that error, the call panics, and the old
contents remain on disk. -/
theorem stale_existing_file_get_or_insert_panics :
    (FileBackedValue.get_or_insert
        ({ value := some 7, dirty_time := some 10 } : FileBackedValue Nat)
        (goodFS 7 0 100) 42).1 = .panics ∧
    (FileBackedValue.get_or_insert
        ({ value := some 7, dirty_time := some 10 } : FileBackedValue Nat)
        (goodFS 7 0 100) 42).2.2.file = some (.encoded 7) ∧
    (FileBackedValue.get_or_insert_with
        ({ value := some 7, dirty_time := some 10 } : FileBackedValue Nat)
        (goodFS 7 0 100) (fun _ => 42)).1 = .panics :=
  ⟨rfl, rfl, rfl⟩

/-- Counterexample to C2: insert(5) while a file already exists at the path
is not surfaced to the caller as a recoverable error — write_file does
produce Err(FileError(AlreadyExists)), but insert unwraps it and the call
panics. -/
theorem insert_conflict_not_recoverable_cex :
    (FileBackedValue.write_file (goodFS 3 0 0) 5).1 =
      Except.error (.FileError .alreadyExists) ∧
    (FileBackedValue.insert (FileBackedValue.new (T := Nat)) (goodFS 3 0 0) 5).1 =
      .panics :=
  ⟨rfl, rfl⟩

/-- Claim C2 as amended: errors of the Result-returning read paths are
returned to the caller — a failing read propagates its error, not a panic,
through get, and likewise through get_or_insert and get_or_insert_with when
they reach their read branch (file not dirty, no in-memory value), leaving
the instance and the filesystem unchanged and the factory unevaluated — and
write_file itself returns the AlreadyExists conflict as an error; but
insert unwraps that result, so a create-exclusive conflict on an existing
file makes insert panic instead of returning a recoverable error. -/
theorem errors_returned_except_insert_conflict {T : Type} (v : FileBackedValue T)
    (fs : FileSystem T) (val : T) (f : Unit → T) :
    (fs.file.isSome = true → fs.createDirFails = false →
      (FileBackedValue.write_file fs val).1 = .error (.FileError .alreadyExists) ∧
      (v.insert fs val).1 = .panics) ∧
    (∀ e : FileBackedValueError,
      (v.value.isNone = true ∨ v.file_is_dirty fs = true) →
      FileBackedValue.read_file (T := T) fs = .error e →
      (v.get fs).1 = .err e) ∧
    (∀ e : FileBackedValueError,
      v.file_is_dirty fs = false → v.value = none →
      FileBackedValue.read_file (T := T) fs = .error e →
      v.get_or_insert fs val = (.err e, v, fs) ∧
      v.get_or_insert_with fs f = (.err e, v, fs, 0)) := by
  refine ⟨?_, ?_, ?_⟩
  · intro hsome hdir
    obtain ⟨c, hc⟩ := Option.isSome_iff_exists.mp hsome
    have hw : FileBackedValue.write_file fs val =
        (.error (.FileError .alreadyExists), fs) := by
      simp [FileBackedValue.write_file, hdir, hc]
    exact ⟨by rw [hw], by simp [FileBackedValue.insert, hw]⟩
  · intro e htrig herr
    have hcond : (v.value.isNone || v.file_is_dirty fs) = true := by
      rcases htrig with h | h <;> simp [h]
    simp [FileBackedValue.get, hcond, herr]
  · intro e hdirty hval herr
    constructor <;>
      simp [FileBackedValue.get_or_insert, FileBackedValue.get_or_insert_with,
        hdirty, hval, herr]

/-- Witness for the amended C2: the conflict panics at a concrete state, and
a concrete failing read returns its error through get, get_or_insert and
get_or_insert_with. -/
theorem errors_returned_except_insert_conflict_witness :
    (FileBackedValue.insert (FileBackedValue.new (T := Nat)) (goodFS 3 0 0) 5).1 =
      .panics ∧
    (FileBackedValue.get (FileBackedValue.new (T := Nat)) (junkFS 0 0)).1 =
      .err .JsonError ∧
    FileBackedValue.get_or_insert (FileBackedValue.new (T := Nat)) (junkFS 0 0) 5 =
      (.err .JsonError, FileBackedValue.new, junkFS 0 0) ∧
    FileBackedValue.get_or_insert_with (FileBackedValue.new (T := Nat)) (junkFS 0 0)
        (fun _ => 5) =
      (.err .JsonError, FileBackedValue.new, junkFS 0 0, 0) :=
  ⟨((errors_returned_except_insert_conflict (FileBackedValue.new (T := Nat))
      (goodFS 3 0 0) 5 (fun _ => 5)).1 (by decide) rfl).2,
   (errors_returned_except_insert_conflict (FileBackedValue.new (T := Nat))
      (junkFS 0 0) 5 (fun _ => 5)).2.1 .JsonError (Or.inl rfl) rfl,
   ((errors_returned_except_insert_conflict (FileBackedValue.new (T := Nat))
      (junkFS 0 0) 5 (fun _ => 5)).2.2 .JsonError rfl rfl rfl).1,
   ((errors_returned_except_insert_conflict (FileBackedValue.new (T := Nat))
      (junkFS 0 0) 5 (fun _ => 5)).2.2 .JsonError rfl rfl rfl).2⟩

/-- Counterexample to C3: instance with threshold 50 and cached value 5; the
backing file holds a well-formed encoding of 7 and was modified 10 ticks ago
(fresh).  After set_dirty(), get_or_insert_with invokes the factory zero
times — not exactly once — and returns the value re-read from the file (7),
not the factory's 9. -/
theorem set_dirty_factory_not_invoked_cex :
    ((FileBackedValue.set_dirty
        ({ value := some 5, dirty_time := some 50 } : FileBackedValue Nat)).2.get_or_insert_with
        (goodFS 7 0 10) (fun _ => 9)).2.2.2 = 0 ∧
    ((FileBackedValue.set_dirty
        ({ value := some 5, dirty_time := some 50 } : FileBackedValue Nat)).2.get_or_insert_with
        (goodFS 7 0 10) (fun _ => 9)).1 = .ok 7 :=
  ⟨rfl, rfl⟩

/-- Claim C3 as amended: after set_dirty() on an instance whose backing file
is not dirty and parses successfully, the next get_or_insert_with(factory)
does not invoke factory at all (zero evaluations): it re-reads the backing
file and returns the file's value. -/
theorem set_dirty_then_get_or_insert_with_rereads {T : Type} (v : FileBackedValue T)
    (fs : FileSystem T) (t : T) (f : Unit → T)
    (hfresh : v.file_is_dirty fs = false)
    (hfile : fs.file = some (.encoded t)) (hopen : fs.openFails = false) :
    v.set_dirty.2.get_or_insert_with fs f =
      (.ok t, { value := some t, dirty_time := v.dirty_time }, fs, 0) := by
  have hd : FileBackedValue.file_is_dirty { v with value := none } fs = false := hfresh
  show FileBackedValue.get_or_insert_with { v with value := none } fs f = _
  simp [FileBackedValue.get_or_insert_with, hd, FileBackedValue.read_file, hfile, hopen]

/-- Witness for the amended C3 at the concrete state of the counterexample
scenario. -/
theorem set_dirty_then_get_or_insert_with_rereads_witness :
    (FileBackedValue.set_dirty
        ({ value := some 5, dirty_time := some 50 } : FileBackedValue Nat)).2.get_or_insert_with
        (goodFS 7 0 10) (fun _ => 9) =
      (.ok 7, { value := some 7, dirty_time := some 50 }, goodFS 7 0 10, 0) :=
  set_dirty_then_get_or_insert_with_rereads
    ({ value := some 5, dirty_time := some 50 } : FileBackedValue Nat)
    (goodFS 7 0 10) 7 (fun _ => 9) (by decide) rfl rfl
